import Mathlib

/-
Verification of the integer type-operator family of the execution codegen
layer (src/execution/type/integer_type.cpp).

The operator implementations emit LLVM IR through a CodeGen collaborator and
return compile-time `Value` handle bundles.  We embed each `Impl` as a
function from concrete operand data to the run-time meaning of the emitted
code on those operands: an `Except` error captures a run-time fault raised by
an emitted guard and, for the partial division and remainder instructions,
undefined behavior when they execute outside their defined domain; a
successful run is paired with the list of instructions the implementation
emits (so that structural facts - a branch merged by a phi was emitted, no
division instruction was emitted - are statable).  Machine integers are
`Int` with explicit wrapping at 2^32 where the emitted instructions wrap.
-/

namespace Terrier

/-- Modelled from the spec: the closed `TypeId` enumeration of SQL scalar
types (type/type_id.h is not under src/).  It contains at least the types the
integer family mentions: boolean, three narrower/equal integer widths plus
bigint, decimal, and the variable-length varchar; `timestamp` stands for the
further members of the closed enumeration that the cast switch sends to its
default case. -/
inductive TypeId where
  | boolean
  | tinyint
  | smallint
  | integer
  | bigint
  | decimal
  | varchar
  | timestamp
  deriving DecidableEq, Repr

/-- Modelled from the spec: a `Type` is a lightweight value wrapping a SqlType
together with a nullability flag, and two Types are equal iff their SqlType
and nullability match (codegen/type/type.h is not under src/).  SqlTypes are
process-wide singletons keyed by TypeId, so SqlType identity is TypeId
equality and we represent the SqlType component by its TypeId. -/
structure Ty where
  sql : TypeId
  nullable : Bool
  deriving DecidableEq, Repr

/-- Modelled from the spec: constructing a `Type` from a bare SqlType, as the
code does for operator result types (`Type{Integer::Instance()}`), yields the
non-nullable Type; the nullable variant is built explicitly, as in
`Type{TypeId(), true}` in `Integer::GetNullValue`. -/
def Ty.ofSql (s : TypeId) : Ty := ⟨s, false⟩

/-- Modelled from the spec: an opaque handle to emitted data, interpreted by
the run-time meaning it denotes - a signed integer of a given bit width, a
one-bit boolean, or a double-precision float (holding an exact integer, the
only way this family produces one). -/
inductive RawVal where
  | int (width : Nat) (v : Int)
  | bit (b : Bool)
  | fp (v : Int)
  deriving DecidableEq, Repr

/-- Modelled from the spec: a `Value` holds a Type, an opaque handle to the
primary data, an optional length handle (empty for fixed-width types), and an
optional is-null handle (absent implies never null); execution/value.h is not
under src/.  Field defaults mirror the constructor defaults
`Value{type, val = nullptr, length = nullptr, null = nullptr}`. -/
structure Value where
  ty : Ty
  val : Option RawVal := none
  len : Option RawVal := none
  null : Option RawVal := none
  deriving DecidableEq, Repr

/-- Modelled from the spec: `Value::GetValue` returns the data handle; it is
only called on Values that carry one, so the default is immaterial. -/
def Value.getValue (v : Value) : RawVal := v.val.getD (RawVal.int 32 0)

/-- The integer content a handle denotes (a one-bit value reads as 0/1). -/
def RawVal.asInt : RawVal → Int
  | RawVal.int _ v => v
  | RawVal.bit b => if b then 1 else 0
  | RawVal.fp v => v

/-- Modelled from the spec: the error policy carried by the per-call
`InvocationContext` (codegen/type/type_system.h is not under src/).  The spec
says the context carries at minimum `RaiseError` (named `OnError::Exception`
in the code) and `ReturnNull`; the division code tests only those two in an
if / else-if chain, so `returnInvalid` stands for any further member of the
enumeration. -/
inductive OnError where
  | exception
  | returnNull
  | returnInvalid
  deriving DecidableEq, Repr

/-- Modelled from the spec: the per-call configuration object, carrying the
error policy governing overflow and divide-by-zero reactions. -/
structure InvocationContext where
  on_error : OnError
  deriving DecidableEq, Repr

/-- Run-time faults the emitted guards can raise, plus the compile-time
unsupported-cast failure, which carries both type names. -/
inductive Fault where
  | divideByZero
  | arithmeticOverflow
  | unsupportedCast (src dst : TypeId)
  deriving DecidableEq, Repr

/-- How a run of emitted code can fail to produce a Value: either a run-time
fault raised by an emitted guard, or undefined behavior of a partial
instruction that executed outside its defined domain (the division and
remainder instructions are the only partial instructions this family
emits). -/
inductive RunError where
  | fault (f : Fault)
  | undefinedBehavior
  deriving DecidableEq, Repr

/-- Modelled from the spec: the kinds of instructions the integer family asks
the IR-emission collaborator for (codegen.h is not under src/).  Only real
instructions are recorded; materializing a constant emits nothing. -/
inductive Instr where
  | icmpEq
  | icmpSlt
  | sub
  | sdiv
  | srem
  | select
  | trunc (width : Nat)
  | sext (width : Nat)
  | sitofp
  | addOvf
  | subOvf
  | mulOvf
  | throwIfOverflow
  | throwIfDivideByZero
  | branch
  | phi
  deriving DecidableEq, Repr

/-- Whether an integer fits the signed 32-bit range. -/
def fits32 (x : Int) : Bool := decide (-(2 ^ 31) ≤ x ∧ x < 2 ^ 31)

/-- Two-complement wrap-around of an integer into the signed 32-bit range:
the value the 32-bit add/sub/mul instructions produce. -/
def wrap32 (x : Int) : Int := (x + 2 ^ 31) % 2 ^ 32 - 2 ^ 31

/-- Signed reading of truncation to `w` bits: the value `CreateTrunc` to an
`w`-bit integer type produces (keep the low `w` bits, reinterpret signed). -/
def truncS (w : Nat) (x : Int) : Int :=
  let m := x % 2 ^ w
  if m < 2 ^ (w - 1) then m else m - 2 ^ w

/-- Modelled from the spec: the integer family's null sentinel constant used
by `Integer::GetNullValue` (type/limits.h is not under src/); its concrete
value is immaterial to every property below, only the is-null flag matters. -/
def int32NullSentinel : Int := -(2 ^ 31)

/-- `Integer::GetNullValue`: a Value typed as nullable integer whose data
handle is the null sentinel constant and whose is-null handle is the constant
true (integer_type.cpp lines 522-525). -/
def Integer.GetNullValue : Value :=
  { ty := ⟨TypeId.integer, true⟩
    val := some (RawVal.int 32 int32NullSentinel)
    len := none
    null := some (RawVal.bit true) }

/-- The is-null bit a merge reads from a Value: an absent handle reads as
not-null. -/
def nullBit : Option RawVal → Bool
  | some (RawVal.bit b) => b
  | some _ => false
  | none => false

/-- Modelled from the spec: `lang::If` / `If::BuildPHI` (execution/lang/if.h
is not under src/) emit a real two-path control-flow branch and merge the two
path results into a single Value via a phi keyed on which path executed: the
merged data handle and is-null handle take the then-path components when the
condition held and the else-path components otherwise (a missing is-null
handle merges as constant false). -/
def mergePhi (cond : Bool) (v1 v2 : Value) : Value :=
  { ty := v1.ty
    val := if cond then v1.val else v2.val
    len := none
    null :=
      if v1.null.isNone && v2.null.isNone then none
      else some (RawVal.bit (if cond then nullBit v1.null else nullBit v2.null)) }

/-- An integer-typed operand Value wrapping the given 32-bit data, as built
by `Value{Integer::Instance(), codegen.Const32(x)}`. -/
def mkIntVal (x : Int) : Value :=
  { ty := Ty.ofSql TypeId.integer, val := some (RawVal.int 32 x), len := none, null := none }

/-- `CastInteger::SupportsTypes` (integer_type.cpp lines 51-66): the source
SqlType must be the integer singleton and the destination TypeId one of
boolean, tinyint, smallint, integer, bigint, decimal. -/
def CastInteger.SupportsTypes (from_type to_type : Ty) : Bool :=
  if from_type.sql ≠ TypeId.integer then false
  else
    match to_type.sql with
    | TypeId.boolean => true
    | TypeId.tinyint => true
    | TypeId.smallint => true
    | TypeId.integer => true
    | TypeId.bigint => true
    | TypeId.decimal => true
    | _ => false

/-- `CastInteger::Impl` (integer_type.cpp lines 68-107): switch on the
destination TypeId - truncate for boolean/tinyint/smallint, pass the handle
through unchanged for integer, sign-extend for bigint, signed-int-to-float
for decimal, and throw an unsupported-cast exception carrying both type names
otherwise; the result takes the destination Type, with a constant-false
is-null handle exactly when the destination is nullable. -/
def CastInteger.Impl (value : Value) (to_type : Ty) : Except Fault (Value × List Instr) :=
  let step : Except Fault (RawVal × List Instr) :=
    match to_type.sql with
    | TypeId.boolean =>
        Except.ok (RawVal.bit (decide (value.getValue.asInt % 2 = 1)), [Instr.trunc 1])
    | TypeId.tinyint =>
        Except.ok (RawVal.int 8 (truncS 8 value.getValue.asInt), [Instr.trunc 8])
    | TypeId.smallint =>
        Except.ok (RawVal.int 16 (truncS 16 value.getValue.asInt), [Instr.trunc 16])
    | TypeId.integer =>
        Except.ok (value.getValue, [])
    | TypeId.bigint =>
        Except.ok (RawVal.int 64 value.getValue.asInt, [Instr.sext 64])
    | TypeId.decimal =>
        Except.ok (RawVal.fp value.getValue.asInt, [Instr.sitofp])
    | _ =>
        Except.error (Fault.unsupportedCast value.ty.sql to_type.sql)
  match step with
  | Except.error f => Except.error f
  | Except.ok (result, tr) =>
      let null : Option RawVal := if to_type.nullable then some (RawVal.bit false) else none
      Except.ok ({ ty := to_type, val := some result, len := none, null := null }, tr)

/-- `CompareInteger::SupportsTypes` (integer_type.cpp lines 118-120):
`left_type == Integer::Instance() && left_type == right_type`, where the
first comparison converts the SqlType to a (non-nullable) Type and Type
equality matches SqlType and nullability. -/
def CompareInteger.SupportsTypes (left_type right_type : Ty) : Bool :=
  decide (left_type = Ty.ofSql TypeId.integer) && decide (left_type = right_type)

/-- `CompareInteger::CompareForSortImpl` (integer_type.cpp lines 152-157):
plain (wrapping) 32-bit subtraction of right from left, returned as an
integer-typed Value. -/
def CompareInteger.CompareForSortImpl (left right : Value) : Except Fault (Value × List Instr) :=
  let diff := wrap32 (left.getValue.asInt - right.getValue.asInt)
  Except.ok
    ({ ty := Ty.ofSql TypeId.integer, val := some (RawVal.int 32 diff), len := none, null := none },
     [Instr.sub])

/-- `Sub::SupportsTypes` (integer_type.cpp lines 287-289). -/
def Sub.SupportsTypes (left_type right_type : Ty) : Bool :=
  decide (left_type.sql = TypeId.integer) && decide (left_type = right_type)

/-- `Sub::Impl` (integer_type.cpp lines 295-309): overflow-checked 32-bit
subtraction; a run-time overflow throw is emitted only under the Exception
policy; the result Value carries no is-null handle. -/
def Sub.Impl (left right : Value) (ctx : InvocationContext) : Except Fault (Value × List Instr) :=
  let a := left.getValue.asInt
  let b := right.getValue.asInt
  let result := wrap32 (a - b)
  let overflow_bit := !fits32 (a - b)
  if ctx.on_error = OnError.exception then
    if overflow_bit then Except.error Fault.arithmeticOverflow
    else
      Except.ok
        ({ ty := Ty.ofSql TypeId.integer, val := some (RawVal.int 32 result) },
         [Instr.subOvf, Instr.throwIfOverflow])
  else
    Except.ok
      ({ ty := Ty.ofSql TypeId.integer, val := some (RawVal.int 32 result) },
       [Instr.subOvf])

/-- `Add::SupportsTypes` (integer_type.cpp lines 261-263). -/
def Add.SupportsTypes (left_type right_type : Ty) : Bool :=
  decide (left_type.sql = TypeId.integer) && decide (left_type = right_type)

/-- `Add::Impl` (integer_type.cpp lines 269-283): overflow-checked 32-bit
addition; a run-time overflow throw is emitted only under the Exception
policy; the result Value carries no is-null handle. -/
def Add.Impl (left right : Value) (ctx : InvocationContext) : Except Fault (Value × List Instr) :=
  let a := left.getValue.asInt
  let b := right.getValue.asInt
  let result := wrap32 (a + b)
  let overflow_bit := !fits32 (a + b)
  if ctx.on_error = OnError.exception then
    if overflow_bit then Except.error Fault.arithmeticOverflow
    else
      Except.ok
        ({ ty := Ty.ofSql TypeId.integer, val := some (RawVal.int 32 result) },
         [Instr.addOvf, Instr.throwIfOverflow])
  else
    Except.ok
      ({ ty := Ty.ofSql TypeId.integer, val := some (RawVal.int 32 result) },
       [Instr.addOvf])

/-- `Mul::SupportsTypes` (integer_type.cpp lines 313-315). -/
def Mul.SupportsTypes (left_type right_type : Ty) : Bool :=
  decide (left_type.sql = TypeId.integer) && decide (left_type = right_type)

/-- `Mul::Impl` (integer_type.cpp lines 321-335): overflow-checked 32-bit
multiplication; a run-time overflow throw is emitted only under the Exception
policy; the result Value carries no is-null handle. -/
def Mul.Impl (left right : Value) (ctx : InvocationContext) : Except Fault (Value × List Instr) :=
  let a := left.getValue.asInt
  let b := right.getValue.asInt
  let result := wrap32 (a * b)
  let overflow_bit := !fits32 (a * b)
  if ctx.on_error = OnError.exception then
    if overflow_bit then Except.error Fault.arithmeticOverflow
    else
      Except.ok
        ({ ty := Ty.ofSql TypeId.integer, val := some (RawVal.int 32 result) },
         [Instr.mulOvf, Instr.throwIfOverflow])
  else
    Except.ok
      ({ ty := Ty.ofSql TypeId.integer, val := some (RawVal.int 32 result) },
       [Instr.mulOvf])

/-- `Negate::Impl` (integer_type.cpp lines 192-203): overflow-checked 32-bit
subtraction of the operand from zero, followed by an unconditional
`ThrowIfOverflow` - the invocation context is an unused parameter. -/
def Negate.Impl (val : Value) (_ctx : InvocationContext) : Except Fault (Value × List Instr) :=
  let v := val.getValue.asInt
  let result := wrap32 (0 - v)
  let overflow_bit := !fits32 (0 - v)
  if overflow_bit then Except.error Fault.arithmeticOverflow
  else
    Except.ok
      ({ ty := Ty.ofSql TypeId.integer, val := some (RawVal.int 32 result) },
       [Instr.subOvf, Instr.throwIfOverflow])

/-- `Abs::Impl` (integer_type.cpp lines 172-183): run the family's own
subtraction on (0, v) under the caller's context, compare v against zero, and
select the subtraction result when v was negative, the operand otherwise. -/
def Abs.Impl (val : Value) (ctx : InvocationContext) : Except Fault (Value × List Instr) :=
  let zero := mkIntVal 0
  match Sub.Impl zero val ctx with
  | Except.error f => Except.error f
  | Except.ok (sub_result, tr) =>
      let v := val.getValue.asInt
      let lt_zero := decide (v < 0)
      let raw_ret := if lt_zero then sub_result.getValue.asInt else v
      Except.ok
        ({ ty := Ty.ofSql TypeId.integer, val := some (RawVal.int 32 raw_ret) },
         tr ++ [Instr.icmpSlt, Instr.select])

/-- `Div::SupportsTypes` (integer_type.cpp lines 340-342). -/
def Div.SupportsTypes (left_type right_type : Ty) : Bool :=
  decide (left_type.sql = TypeId.integer) && decide (left_type = right_type)

/-- Run-time semantics of the LLVM `sdiv` instruction on 32-bit operands:
the quotient truncated toward zero - except that dividing by zero, or
dividing -2^31 by -1 (whose true quotient 2^31 is not representable in the
32-bit result), is undefined behavior, not a value. -/
def sdiv32 (a b : Int) : Except RunError Int :=
  if b = 0 ∨ (a = -(2 ^ 31) ∧ b = -1) then Except.error RunError.undefinedBehavior
  else Except.ok (Int.tdiv a b)

/-- Run-time semantics of the LLVM `srem` instruction on 32-bit operands:
the remainder of truncated division, whose sign follows the dividend -
except that a zero divisor, or the overflowing pair (-2^31, -1), is
undefined behavior, not a value. -/
def srem32 (a b : Int) : Except RunError Int :=
  if b = 0 ∨ (a = -(2 ^ 31) ∧ b = -1) then Except.error RunError.undefinedBehavior
  else Except.ok (Int.tmod a b)

/-- `Div::Impl` (integer_type.cpp lines 348-388): first emit the divisor
zero-test; under ReturnNull emit a two-path branch (null value on the zero
path, `sdiv` on the other) merged by a phi; under Exception emit a
divide-by-zero throw on the zero-test and then the `sdiv`; under any other
policy the default-constructed integer result Value (no data handle) is
returned with nothing further emitted.  At run time only the path selected
by the zero-test executes: on the zero path the emitted `sdiv` never runs
(its incoming phi value is dead and is not modelled), and on the nonzero
path the `sdiv` executes with the partial semantics `sdiv32` - undefined
behavior at the overflow pair. -/
def Div.Impl (left right : Value) (ctx : InvocationContext) : Except RunError (Value × List Instr) :=
  let a := left.getValue.asInt
  let b := right.getValue.asInt
  let div0 := decide (b = 0)
  if ctx.on_error = OnError.returnNull then
    let default_val := Integer.GetNullValue
    let tr := [Instr.icmpEq, Instr.branch, Instr.sdiv, Instr.phi]
    if div0 then
      -- the divisor-is-zero path executed; the division path contributes
      -- only its statically absent is-null handle to the merge
      Except.ok (mergePhi true default_val
        { ty := Ty.ofSql TypeId.integer, val := none, len := none, null := none }, tr)
    else
      match sdiv32 a b with
      | Except.error e => Except.error e
      | Except.ok q =>
          Except.ok (mergePhi false default_val
            { ty := Ty.ofSql TypeId.integer, val := some (RawVal.int 32 q),
              len := none, null := none }, tr)
  else if ctx.on_error = OnError.exception then
    if div0 then Except.error (RunError.fault Fault.divideByZero)
    else
      match sdiv32 a b with
      | Except.error e => Except.error e
      | Except.ok q =>
          Except.ok
            ({ ty := Ty.ofSql TypeId.integer, val := some (RawVal.int 32 q),
               len := none, null := none },
             [Instr.icmpEq, Instr.throwIfDivideByZero, Instr.sdiv])
  else
    Except.ok ({ ty := Ty.ofSql TypeId.integer }, [Instr.icmpEq])

/-- `Modulo::SupportsTypes` (integer_type.cpp lines 393-395). -/
def Modulo.SupportsTypes (left_type right_type : Ty) : Bool :=
  decide (left_type.sql = TypeId.integer) && decide (left_type = right_type)

/-- `Modulo::Impl` (integer_type.cpp lines 401-441): identical structure to
`Div::Impl` with the remainder instruction `srem` in place of `sdiv`, with
the same run-time path selection: the emitted `srem` executes only on the
nonzero path, with the partial semantics `srem32` - undefined behavior at
the overflow pair. -/
def Modulo.Impl (left right : Value) (ctx : InvocationContext) : Except RunError (Value × List Instr) :=
  let a := left.getValue.asInt
  let b := right.getValue.asInt
  let div0 := decide (b = 0)
  if ctx.on_error = OnError.returnNull then
    let default_val := Integer.GetNullValue
    let tr := [Instr.icmpEq, Instr.branch, Instr.srem, Instr.phi]
    if div0 then
      -- the divisor-is-zero path executed; the remainder path contributes
      -- only its statically absent is-null handle to the merge
      Except.ok (mergePhi true default_val
        { ty := Ty.ofSql TypeId.integer, val := none, len := none, null := none }, tr)
    else
      match srem32 a b with
      | Except.error e => Except.error e
      | Except.ok q =>
          Except.ok (mergePhi false default_val
            { ty := Ty.ofSql TypeId.integer, val := some (RawVal.int 32 q),
              len := none, null := none }, tr)
  else if ctx.on_error = OnError.exception then
    if div0 then Except.error (RunError.fault Fault.divideByZero)
    else
      match srem32 a b with
      | Except.error e => Except.error e
      | Except.ok q =>
          Except.ok
            ({ ty := Ty.ofSql TypeId.integer, val := some (RawVal.int 32 q),
               len := none, null := none },
             [Instr.icmpEq, Instr.throwIfDivideByZero, Instr.srem])
  else
    Except.ok ({ ty := Ty.ofSql TypeId.integer }, [Instr.icmpEq])

/-- The error, if any, of a run of an operator implementation (a raised
fault for the total operators, a raised fault or undefined behavior for
division and modulo). -/
def faulted {ε : Type} (r : Except ε (Value × List Instr)) : Option ε :=
  match r with
  | Except.error f => some f
  | Except.ok _ => none

/-- The data handle of the result Value of a non-faulting run. -/
def resultData {ε : Type} (r : Except ε (Value × List Instr)) : Option RawVal :=
  match r with
  | Except.error _ => none
  | Except.ok (v, _) => v.val

/-- The is-null handle of the result Value of a non-faulting run. -/
def resultNull {ε : Type} (r : Except ε (Value × List Instr)) : Option RawVal :=
  match r with
  | Except.error _ => none
  | Except.ok (v, _) => v.null

/-- The Type of the result Value of a non-faulting run. -/
def resultTy {ε : Type} (r : Except ε (Value × List Instr)) : Option Ty :=
  match r with
  | Except.error _ => none
  | Except.ok (v, _) => some v.ty

/-- The instruction trace of a non-faulting run. -/
def okTrace {ε : Type} (r : Except ε (Value × List Instr)) : Option (List Instr) :=
  match r with
  | Except.error _ => none
  | Except.ok (_, tr) => some tr

theorem fits32_iff (x : Int) : fits32 x = true ↔ -(2 ^ 31) ≤ x ∧ x < 2 ^ 31 := by
  simp [fits32]

theorem wrap32_eq_of_fits (x : Int) (h : fits32 x = true) : wrap32 x = x := by
  rw [fits32_iff] at h
  unfold wrap32
  have hp : (2 : Int) ^ 31 = 2147483648 := by norm_num
  have hq : (2 : Int) ^ 32 = 4294967296 := by norm_num
  have he : (x + 2 ^ 31) % 2 ^ 32 = x + 2 ^ 31 :=
    Int.emod_eq_of_lt (by omega) (by omega)
  omega

theorem tmod_nonpos_of_nonpos (a b : Int) (h : a ≤ 0) : a.tmod b ≤ 0 := by
  have h1 := Int.tmod_nonneg b (a := -a) (by omega)
  have h2 : (-a).tmod b = -a - b * ((-a).tdiv b) := Int.tmod_def (-a) b
  have h3 : a.tmod b = a - b * (a.tdiv b) := Int.tmod_def a b
  rw [Int.neg_tdiv] at h2
  have h4 : (-a).tmod b = -(a.tmod b) := by rw [h2, h3]; ring
  omega

/-- Claim C1 is refuted as stated at the signed-overflow operand pair: the
divisor -1 is nonzero, yet dividing -2^31 by it makes the emitted `sdiv` /
`srem` instruction itself overflow (the true quotient 2^31 is not
representable in the 32-bit result), which is undefined behavior of the
compiled code - no truncated quotient or remainder Value is produced. -/
theorem claim_C1_counterexample :
    (-1 : Int) ≠ 0 ∧
    Div.Impl (mkIntVal (-(2 ^ 31))) (mkIntVal (-1)) ⟨OnError.exception⟩ =
      Except.error RunError.undefinedBehavior ∧
    Modulo.Impl (mkIntVal (-(2 ^ 31))) (mkIntVal (-1)) ⟨OnError.exception⟩ =
      Except.error RunError.undefinedBehavior ∧
    resultData (Div.Impl (mkIntVal (-(2 ^ 31))) (mkIntVal (-1)) ⟨OnError.exception⟩) ≠
      some (RawVal.int 32 (Int.tdiv (-(2 ^ 31)) (-1))) ∧
    resultData (Modulo.Impl (mkIntVal (-(2 ^ 31))) (mkIntVal (-1)) ⟨OnError.exception⟩) ≠
      some (RawVal.int 32 (Int.tmod (-(2 ^ 31)) (-1))) :=
  ⟨by decide, rfl, rfl, by decide, by decide⟩

/-- Claim C1, amended: for integer division and modulo, a zero divisor
raises a DivideByZero fault under the RaiseError (Exception) policy, while
under ReturnNull no fault occurs and a null integer Value is produced
through a two-path branch merged by a phi; with a nonzero divisor other
than the signed-overflow pair (-2^31, -1) the result is the quotient
truncated toward zero (its magnitude is the natural-number quotient of the
magnitudes and it satisfies the division identity), and the remainder has
the sign of the dividend; at the overflow pair the emitted division or
remainder instruction executes outside its defined domain and the run is
undefined behavior under both policies. -/
theorem claim_C1_div_modulo_semantics (a b : Int) :
    (b = 0 →
      faulted (Div.Impl (mkIntVal a) (mkIntVal b) ⟨OnError.exception⟩) =
        some (RunError.fault Fault.divideByZero) ∧
      faulted (Modulo.Impl (mkIntVal a) (mkIntVal b) ⟨OnError.exception⟩) =
        some (RunError.fault Fault.divideByZero)) ∧
    (b = 0 →
      faulted (Div.Impl (mkIntVal a) (mkIntVal b) ⟨OnError.returnNull⟩) = none ∧
      resultNull (Div.Impl (mkIntVal a) (mkIntVal b) ⟨OnError.returnNull⟩) = some (RawVal.bit true) ∧
      resultTy (Div.Impl (mkIntVal a) (mkIntVal b) ⟨OnError.returnNull⟩) = some ⟨TypeId.integer, true⟩ ∧
      okTrace (Div.Impl (mkIntVal a) (mkIntVal b) ⟨OnError.returnNull⟩) =
        some [Instr.icmpEq, Instr.branch, Instr.sdiv, Instr.phi] ∧
      faulted (Modulo.Impl (mkIntVal a) (mkIntVal b) ⟨OnError.returnNull⟩) = none ∧
      resultNull (Modulo.Impl (mkIntVal a) (mkIntVal b) ⟨OnError.returnNull⟩) = some (RawVal.bit true) ∧
      okTrace (Modulo.Impl (mkIntVal a) (mkIntVal b) ⟨OnError.returnNull⟩) =
        some [Instr.icmpEq, Instr.branch, Instr.srem, Instr.phi]) ∧
    (b ≠ 0 → ¬(a = -(2 ^ 31) ∧ b = -1) →
      faulted (Div.Impl (mkIntVal a) (mkIntVal b) ⟨OnError.exception⟩) = none ∧
      resultData (Div.Impl (mkIntVal a) (mkIntVal b) ⟨OnError.exception⟩) =
        some (RawVal.int 32 (a.tdiv b)) ∧
      resultData (Div.Impl (mkIntVal a) (mkIntVal b) ⟨OnError.returnNull⟩) =
        some (RawVal.int 32 (a.tdiv b)) ∧
      resultNull (Div.Impl (mkIntVal a) (mkIntVal b) ⟨OnError.returnNull⟩) = some (RawVal.bit false) ∧
      (a.tdiv b).natAbs = a.natAbs / b.natAbs ∧
      b * a.tdiv b + a.tmod b = a) ∧
    (b ≠ 0 → ¬(a = -(2 ^ 31) ∧ b = -1) →
      faulted (Modulo.Impl (mkIntVal a) (mkIntVal b) ⟨OnError.exception⟩) = none ∧
      resultData (Modulo.Impl (mkIntVal a) (mkIntVal b) ⟨OnError.exception⟩) =
        some (RawVal.int 32 (a.tmod b)) ∧
      resultData (Modulo.Impl (mkIntVal a) (mkIntVal b) ⟨OnError.returnNull⟩) =
        some (RawVal.int 32 (a.tmod b)) ∧
      (0 ≤ a → 0 ≤ a.tmod b) ∧
      (a ≤ 0 → a.tmod b ≤ 0)) ∧
    (a = -(2 ^ 31) → b = -1 →
      Div.Impl (mkIntVal a) (mkIntVal b) ⟨OnError.exception⟩ =
        Except.error RunError.undefinedBehavior ∧
      Div.Impl (mkIntVal a) (mkIntVal b) ⟨OnError.returnNull⟩ =
        Except.error RunError.undefinedBehavior ∧
      Modulo.Impl (mkIntVal a) (mkIntVal b) ⟨OnError.exception⟩ =
        Except.error RunError.undefinedBehavior ∧
      Modulo.Impl (mkIntVal a) (mkIntVal b) ⟨OnError.returnNull⟩ =
        Except.error RunError.undefinedBehavior) := by
  refine ⟨?_, ?_, ?_, ?_, ?_⟩
  · intro hb; subst hb
    simp [Div.Impl, Modulo.Impl, faulted, mkIntVal, Value.getValue, RawVal.asInt]
  · intro hb; subst hb
    simp [Div.Impl, Modulo.Impl, faulted, resultNull, resultTy, okTrace, mergePhi,
      Integer.GetNullValue, nullBit, mkIntVal, Value.getValue, RawVal.asInt, Ty.ofSql]
  · intro hb hnp
    have hcond : ¬(b = 0 ∨ (a = -(2 ^ 31) ∧ b = -1)) := fun h => h.elim hb hnp
    have hsd : sdiv32 a b = Except.ok (Int.tdiv a b) := by unfold sdiv32; rw [if_neg hcond]
    refine ⟨?_, ?_, ?_, ?_, Int.natAbs_tdiv a b, Int.tdiv_add_tmod a b⟩ <;>
      simp [Div.Impl, faulted, resultData, resultNull, mergePhi, Integer.GetNullValue,
        nullBit, mkIntVal, Value.getValue, RawVal.asInt, Ty.ofSql, hb, hsd]
  · intro hb hnp
    have hcond : ¬(b = 0 ∨ (a = -(2 ^ 31) ∧ b = -1)) := fun h => h.elim hb hnp
    have hsr : srem32 a b = Except.ok (Int.tmod a b) := by unfold srem32; rw [if_neg hcond]
    refine ⟨?_, ?_, ?_, fun h => Int.tmod_nonneg b h, fun h => tmod_nonpos_of_nonpos a b h⟩ <;>
      simp [Modulo.Impl, faulted, resultData, mergePhi, Integer.GetNullValue,
        nullBit, mkIntVal, Value.getValue, RawVal.asInt, Ty.ofSql, hb, hsr]
  · intro ha hb; subst ha; subst hb
    exact ⟨rfl, rfl, rfl, rfl⟩

theorem claim_C1_witness :
    faulted (Div.Impl (mkIntVal 10) (mkIntVal 0) ⟨OnError.exception⟩) =
      some (RunError.fault Fault.divideByZero) ∧
    resultNull (Div.Impl (mkIntVal 10) (mkIntVal 0) ⟨OnError.returnNull⟩) = some (RawVal.bit true) ∧
    resultData (Div.Impl (mkIntVal 10) (mkIntVal 3) ⟨OnError.exception⟩) = some (RawVal.int 32 3) ∧
    resultData (Modulo.Impl (mkIntVal (-7)) (mkIntVal 2) ⟨OnError.exception⟩) =
      some (RawVal.int 32 (-1)) :=
  ⟨((claim_C1_div_modulo_semantics 10 0).1 rfl).1,
   ((claim_C1_div_modulo_semantics 10 0).2.1 rfl).2.1,
   ((claim_C1_div_modulo_semantics 10 3).2.2.1 (by decide) (by decide)).2.1,
   ((claim_C1_div_modulo_semantics (-7) 2).2.2.2.1 (by decide) (by decide)).2.1⟩

/-- Claim C2: Negate.Impl raises ArithmeticOverflow exactly when the
overflow-checked subtraction 0 - v overflows, which for a 32-bit operand
happens only at the boundary value -2^31, and it does so for every invocation
context (the policy, ReturnNull included, is ignored); away from the boundary
it yields the exact negation with no is-null handle, never a null result. -/
theorem claim_C2_negate_always_raises (v : Int) (ctx : InvocationContext)
    (hv : fits32 v = true) :
    (faulted (Negate.Impl (mkIntVal v) ctx) = some Fault.arithmeticOverflow ↔ v = -(2 ^ 31)) ∧
    (v ≠ -(2 ^ 31) →
      Negate.Impl (mkIntVal v) ctx =
        Except.ok ({ ty := Ty.ofSql TypeId.integer, val := some (RawVal.int 32 (-v)) },
                   [Instr.subOvf, Instr.throwIfOverflow])) := by
  rw [fits32_iff] at hv
  have hp : (2 : Int) ^ 31 = 2147483648 := by norm_num
  by_cases hmin : v = -(2 ^ 31)
  · subst hmin
    refine ⟨?_, fun h => absurd rfl h⟩
    simp only [iff_true]
    norm_num [Negate.Impl, faulted, mkIntVal, Value.getValue, RawVal.asInt, fits32]
  · have hfit : fits32 (-v) = true := by rw [fits32_iff]; omega
    have hw : wrap32 (-v) = -v := wrap32_eq_of_fits _ hfit
    refine ⟨?_, fun _ => ?_⟩
    · simp only [hmin, iff_false]
      intro hcontra
      simp [Negate.Impl, faulted, mkIntVal, Value.getValue, RawVal.asInt, hfit] at hcontra
    · simp [Negate.Impl, mkIntVal, Value.getValue, RawVal.asInt, hfit, hw]

theorem claim_C2_witness :
    faulted (Negate.Impl (mkIntVal (-(2 ^ 31))) ⟨OnError.returnNull⟩) =
      some Fault.arithmeticOverflow ∧
    Negate.Impl (mkIntVal 5) ⟨OnError.returnNull⟩ =
      Except.ok ({ ty := Ty.ofSql TypeId.integer, val := some (RawVal.int 32 (-5)) },
                 [Instr.subOvf, Instr.throwIfOverflow]) :=
  ⟨(claim_C2_negate_always_raises (-(2 ^ 31)) ⟨OnError.returnNull⟩ (by decide)).1.mpr rfl,
   (claim_C2_negate_always_raises 5 ⟨OnError.returnNull⟩ (by decide)).2 (by decide)⟩

/-- Claim C3: when the true sum, difference, or product of two in-range
operands itself fits the 32-bit range, Add, Sub, and Mul produce exactly
that value with no fault under every policy; and under the RaiseError
(Exception) policy an overflowing addition or subtraction raises
ArithmeticOverflow. -/
theorem claim_C3_exact_arith_and_overflow (a b : Int) (ctx : InvocationContext)
    (ha : fits32 a = true) (hb : fits32 b = true) :
    (fits32 (a + b) = true →
      faulted (Add.Impl (mkIntVal a) (mkIntVal b) ctx) = none ∧
      resultData (Add.Impl (mkIntVal a) (mkIntVal b) ctx) = some (RawVal.int 32 (a + b))) ∧
    (fits32 (a - b) = true →
      faulted (Sub.Impl (mkIntVal a) (mkIntVal b) ctx) = none ∧
      resultData (Sub.Impl (mkIntVal a) (mkIntVal b) ctx) = some (RawVal.int 32 (a - b))) ∧
    (fits32 (a * b) = true →
      faulted (Mul.Impl (mkIntVal a) (mkIntVal b) ctx) = none ∧
      resultData (Mul.Impl (mkIntVal a) (mkIntVal b) ctx) = some (RawVal.int 32 (a * b))) ∧
    (ctx.on_error = OnError.exception → fits32 (a + b) = false →
      faulted (Add.Impl (mkIntVal a) (mkIntVal b) ctx) = some Fault.arithmeticOverflow) ∧
    (ctx.on_error = OnError.exception → fits32 (a - b) = false →
      faulted (Sub.Impl (mkIntVal a) (mkIntVal b) ctx) = some Fault.arithmeticOverflow) := by
  obtain ⟨e⟩ := ctx
  refine ⟨fun h => ?_, fun h => ?_, fun h => ?_, fun he h => ?_, fun he h => ?_⟩ <;>
    first
    | (cases e <;>
        simp [Add.Impl, Sub.Impl, Mul.Impl, faulted, resultData, mkIntVal,
          Value.getValue, RawVal.asInt, h, wrap32_eq_of_fits _ h])
    | (simp only at he; subst he
       simp [Add.Impl, Sub.Impl, faulted, mkIntVal, Value.getValue, RawVal.asInt, h])

theorem claim_C3_witness :
    resultData (Add.Impl (mkIntVal 5) (mkIntVal 3) ⟨OnError.exception⟩) =
      some (RawVal.int 32 8) ∧
    faulted (Add.Impl (mkIntVal 2147483647) (mkIntVal 1) ⟨OnError.exception⟩) =
      some Fault.arithmeticOverflow :=
  ⟨((claim_C3_exact_arith_and_overflow 5 3 ⟨OnError.exception⟩ (by decide) (by decide)).1
      (by decide)).2,
   (claim_C3_exact_arith_and_overflow 2147483647 1 ⟨OnError.exception⟩ (by decide)
      (by decide)).2.2.2.1 rfl (by decide)⟩

/-- Claim C4: under any policy other than RaiseError (Exception) - in
particular ReturnNull - an overflowing addition, subtraction, or
multiplication neither faults nor produces a null Value: the implementation
returns the wrapped 32-bit result in a Value with no is-null handle, with no
overflow guard emitted. -/
theorem claim_C4_overflow_not_suppressed (a b : Int) (ctx : InvocationContext)
    (hctx : ctx.on_error ≠ OnError.exception) :
    (fits32 (a + b) = false →
      Add.Impl (mkIntVal a) (mkIntVal b) ctx =
        Except.ok ({ ty := Ty.ofSql TypeId.integer, val := some (RawVal.int 32 (wrap32 (a + b))) },
                   [Instr.addOvf])) ∧
    (fits32 (a - b) = false →
      Sub.Impl (mkIntVal a) (mkIntVal b) ctx =
        Except.ok ({ ty := Ty.ofSql TypeId.integer, val := some (RawVal.int 32 (wrap32 (a - b))) },
                   [Instr.subOvf])) ∧
    (fits32 (a * b) = false →
      Mul.Impl (mkIntVal a) (mkIntVal b) ctx =
        Except.ok ({ ty := Ty.ofSql TypeId.integer, val := some (RawVal.int 32 (wrap32 (a * b))) },
                   [Instr.mulOvf])) := by
  refine ⟨fun _ => ?_, fun _ => ?_, fun _ => ?_⟩ <;>
    simp [Add.Impl, Sub.Impl, Mul.Impl, mkIntVal, Value.getValue, RawVal.asInt, hctx]

theorem claim_C4_witness :
    Add.Impl (mkIntVal 2147483647) (mkIntVal 1) ⟨OnError.returnNull⟩ =
      Except.ok ({ ty := Ty.ofSql TypeId.integer,
                   val := some (RawVal.int 32 (wrap32 (2147483647 + 1))) },
                 [Instr.addOvf]) :=
  (claim_C4_overflow_not_suppressed 2147483647 1 ⟨OnError.returnNull⟩ (by decide)).1 (by decide)

/-- Claim C5: for operands whose difference fits the 32-bit range,
CompareForSortImpl returns an integer-typed (same-family, signed) Value whose
data is exactly the arithmetic difference left minus right - not a
sign-normalized discriminator. -/
theorem claim_C5_compare_for_sort_is_difference (a b : Int) (h : fits32 (a - b) = true) :
    CompareInteger.CompareForSortImpl (mkIntVal a) (mkIntVal b) =
      Except.ok ({ ty := Ty.ofSql TypeId.integer, val := some (RawVal.int 32 (a - b)),
                   len := none, null := none },
                 [Instr.sub]) := by
  simp [CompareInteger.CompareForSortImpl, mkIntVal, Value.getValue, RawVal.asInt,
    wrap32_eq_of_fits _ h]

theorem claim_C5_witness :
    CompareInteger.CompareForSortImpl (mkIntVal 7) (mkIntVal 10) =
      Except.ok ({ ty := Ty.ofSql TypeId.integer, val := some (RawVal.int 32 (-3)),
                   len := none, null := none },
                 [Instr.sub]) := by
  have h := claim_C5_compare_for_sort_is_difference 7 10 (by decide)
  norm_num at h
  exact h

/-- Claim C6: for every representable integer input, CastInteger.Impl
truncates for the narrower destinations (to boolean the result bit is true
iff the low bit of the input is 1; to tinyint and smallint the result is
congruent to the input modulo 2^8 and 2^16 and lies in the corresponding
signed range), passes the data handle through unchanged with nothing emitted when
the destination is integer itself, sign-extends to a 64-bit value preserving
the integer when the destination is bigint, and converts signed-to-floating
for decimal. -/
theorem claim_C6_cast_semantics (x : Int) (hx : fits32 x = true) :
    (CastInteger.Impl (mkIntVal x) (Ty.ofSql TypeId.boolean) =
      Except.ok ({ ty := Ty.ofSql TypeId.boolean,
                   val := some (RawVal.bit (decide (x % 2 = 1))), len := none, null := none },
                 [Instr.trunc 1])) ∧
    (CastInteger.Impl (mkIntVal x) (Ty.ofSql TypeId.tinyint) =
      Except.ok ({ ty := Ty.ofSql TypeId.tinyint,
                   val := some (RawVal.int 8 (truncS 8 x)), len := none, null := none },
                 [Instr.trunc 8])) ∧
    (truncS 8 x % 256 = x % 256 ∧ -128 ≤ truncS 8 x ∧ truncS 8 x < 128) ∧
    (CastInteger.Impl (mkIntVal x) (Ty.ofSql TypeId.smallint) =
      Except.ok ({ ty := Ty.ofSql TypeId.smallint,
                   val := some (RawVal.int 16 (truncS 16 x)), len := none, null := none },
                 [Instr.trunc 16])) ∧
    (truncS 16 x % 65536 = x % 65536 ∧ -32768 ≤ truncS 16 x ∧ truncS 16 x < 32768) ∧
    (CastInteger.Impl (mkIntVal x) (Ty.ofSql TypeId.integer) =
      Except.ok (mkIntVal x, [])) ∧
    (CastInteger.Impl (mkIntVal x) (Ty.ofSql TypeId.bigint) =
      Except.ok ({ ty := Ty.ofSql TypeId.bigint,
                   val := some (RawVal.int 64 x), len := none, null := none },
                 [Instr.sext 64])) ∧
    (CastInteger.Impl (mkIntVal x) (Ty.ofSql TypeId.decimal) =
      Except.ok ({ ty := Ty.ofSql TypeId.decimal,
                   val := some (RawVal.fp x), len := none, null := none },
                 [Instr.sitofp])) := by
  have ht8 : truncS 8 x = if x % 256 < 128 then x % 256 else x % 256 - 256 := by
    unfold truncS; norm_num
  have ht16 : truncS 16 x =
      if x % 65536 < 32768 then x % 65536 else x % 65536 - 65536 := by
    unfold truncS; norm_num
  have h8 : truncS 8 x % 256 = x % 256 ∧ -128 ≤ truncS 8 x ∧ truncS 8 x < 128 := by
    rw [ht8]; split <;> omega
  have h16 : truncS 16 x % 65536 = x % 65536 ∧
      -32768 ≤ truncS 16 x ∧ truncS 16 x < 32768 := by
    rw [ht16]; split <;> omega
  refine ⟨?_, ?_, h8, ?_, h16, ?_, ?_, ?_⟩ <;>
    simp [CastInteger.Impl, mkIntVal, Value.getValue, RawVal.asInt, Ty.ofSql]

theorem claim_C6_witness :
    CastInteger.Impl (mkIntVal 300) (Ty.ofSql TypeId.boolean) =
      Except.ok ({ ty := Ty.ofSql TypeId.boolean,
                   val := some (RawVal.bit false), len := none, null := none },
                 [Instr.trunc 1]) := by
  have h := (claim_C6_cast_semantics 300 (by decide)).1
  norm_num at h
  exact h

/-- Claim C7: CastInteger.SupportsTypes accepts exactly the pairs whose
source SqlType is integer and whose destination TypeId is in the fixed
allow-list boolean, tinyint, smallint, integer, bigint, decimal (varchar is
not in the list), independent of nullability; and CastInteger.Impl invoked
with a destination outside that list fails with an unsupported-cast
condition carrying both the source and destination type names. -/
theorem claim_C7_cast_allowlist :
    (∀ from_type to_type : Ty,
      CastInteger.SupportsTypes from_type to_type = true ↔
        (from_type.sql = TypeId.integer ∧
         to_type.sql ∈ [TypeId.boolean, TypeId.tinyint, TypeId.smallint,
                        TypeId.integer, TypeId.bigint, TypeId.decimal])) ∧
    (∀ v : Value, ∀ to_type : Ty,
      to_type.sql ∉ [TypeId.boolean, TypeId.tinyint, TypeId.smallint,
                     TypeId.integer, TypeId.bigint, TypeId.decimal] →
      CastInteger.Impl v to_type = Except.error (Fault.unsupportedCast v.ty.sql to_type.sql)) := by
  constructor
  · rintro ⟨fs, fn⟩ ⟨ts, tn⟩
    cases fs <;> cases ts <;> simp [CastInteger.SupportsTypes]
  · rintro v ⟨ts, tn⟩ h
    cases ts <;> simp_all [CastInteger.Impl]

theorem claim_C7_witness :
    CastInteger.Impl (mkIntVal 5) (Ty.ofSql TypeId.varchar) =
      Except.error (Fault.unsupportedCast TypeId.integer TypeId.varchar) :=
  claim_C7_cast_allowlist.2 (mkIntVal 5) (Ty.ofSql TypeId.varchar) (by decide)

/-- Claim C8 is refuted as stated: both operand Types here carry the
identical integer SqlType singleton, yet the comparison operator rejects the
nullable pair (its left-operand check compares against the non-nullable
integer Type), and the arithmetic check rejects operands whose nullability
differs - so the supports predicates depend on nullability, not only on the
SqlTypes being the same singleton. -/
theorem claim_C8_counterexample :
    CompareInteger.SupportsTypes ⟨TypeId.integer, true⟩ ⟨TypeId.integer, true⟩ = false ∧
    Add.SupportsTypes ⟨TypeId.integer, true⟩ ⟨TypeId.integer, false⟩ = false := by
  decide

/-- Claim C8, amended: for the integer family the comparison operator
supports exactly pairs of the non-nullable integer Type, and each binary
arithmetic operator (add, subtract, multiply, divide, modulo) supports
exactly pairs whose left SqlType is integer and whose operand Types -
SqlType and nullability - are equal. -/
theorem claim_C8_amended_supports_types :
    ∀ l r : Ty,
      (CompareInteger.SupportsTypes l r = true ↔
        (l = ⟨TypeId.integer, false⟩ ∧ r = ⟨TypeId.integer, false⟩)) ∧
      (Add.SupportsTypes l r = true ↔ (l.sql = TypeId.integer ∧ l = r)) ∧
      (Sub.SupportsTypes l r = true ↔ (l.sql = TypeId.integer ∧ l = r)) ∧
      (Mul.SupportsTypes l r = true ↔ (l.sql = TypeId.integer ∧ l = r)) ∧
      (Div.SupportsTypes l r = true ↔ (l.sql = TypeId.integer ∧ l = r)) ∧
      (Modulo.SupportsTypes l r = true ↔ (l.sql = TypeId.integer ∧ l = r)) := by
  intro l r
  refine ⟨?_, ?_, ?_, ?_, ?_, ?_⟩
  · simp only [CompareInteger.SupportsTypes, Ty.ofSql, Bool.and_eq_true, decide_eq_true_eq]
    constructor
    · rintro ⟨h1, h2⟩; subst h2; exact ⟨h1, h1⟩
    · rintro ⟨h1, h2⟩; subst h1; subst h2; exact ⟨rfl, rfl⟩
  · simp [Add.SupportsTypes]
  · simp [Sub.SupportsTypes]
  · simp [Mul.SupportsTypes]
  · simp [Div.SupportsTypes]
  · simp [Modulo.SupportsTypes]

/-- Claim C9: Abs.Impl is the family's own subtraction applied to (0, v)
followed by a conditional select on v < 0: its fault outcome is exactly that
of Sub.Impl(0, v, ctx) under the same context (so it raises
ArithmeticOverflow at -2^31 under RaiseError), whenever the subtraction
yields a value s the result data is select(v < 0, s, v), and away from the
boundary it equals the absolute value of v under every policy. -/
theorem claim_C9_abs_via_sub_and_select (v : Int) (ctx : InvocationContext)
    (hv : fits32 v = true) :
    (faulted (Abs.Impl (mkIntVal v) ctx) = faulted (Sub.Impl (mkIntVal 0) (mkIntVal v) ctx)) ∧
    (∀ s : Value, ∀ tr : List Instr,
      Sub.Impl (mkIntVal 0) (mkIntVal v) ctx = Except.ok (s, tr) →
      resultData (Abs.Impl (mkIntVal v) ctx) =
        some (RawVal.int 32 (if v < 0 then s.getValue.asInt else v))) ∧
    (v ≠ -(2 ^ 31) →
      faulted (Abs.Impl (mkIntVal v) ctx) = none ∧
      resultData (Abs.Impl (mkIntVal v) ctx) = some (RawVal.int 32 |v|)) ∧
    (ctx.on_error = OnError.exception → v = -(2 ^ 31) →
      faulted (Abs.Impl (mkIntVal v) ctx) = some Fault.arithmeticOverflow) := by
  rw [fits32_iff] at hv
  have hp : (2 : Int) ^ 31 = 2147483648 := by norm_num
  refine ⟨?_, ?_, ?_, ?_⟩
  · simp only [Abs.Impl]
    cases hs : Sub.Impl (mkIntVal 0) (mkIntVal v) ctx <;> simp [faulted]
  · intro s tr hs
    simp only [Abs.Impl]
    rw [hs]
    simp [resultData, mkIntVal, Value.getValue, RawVal.asInt]
  · intro hmin
    have hfit : fits32 (0 - v) = true := by rw [fits32_iff]; omega
    have hw : wrap32 (0 - v) = 0 - v := wrap32_eq_of_fits _ hfit
    have hsub : Sub.Impl (mkIntVal 0) (mkIntVal v) ctx =
        Except.ok ({ ty := Ty.ofSql TypeId.integer, val := some (RawVal.int 32 (0 - v)) },
                   if ctx.on_error = OnError.exception then
                     [Instr.subOvf, Instr.throwIfOverflow]
                   else [Instr.subOvf]) := by
      unfold Sub.Impl
      split <;> simp_all [mkIntVal, Value.getValue, RawVal.asInt]
    simp only [Abs.Impl]
    rw [hsub]
    by_cases hneg : v < 0
    · simp [faulted, resultData, mkIntVal, Value.getValue, RawVal.asInt, hneg, abs_of_neg hneg]
    · simp [faulted, resultData, mkIntVal, Value.getValue, RawVal.asInt, hneg,
        abs_of_nonneg (not_lt.mp hneg)]
  · intro he hmin
    subst hmin
    simp only [Abs.Impl]
    unfold Sub.Impl
    simp [he, faulted, mkIntVal, Value.getValue, RawVal.asInt, fits32]

theorem claim_C9_witness :
    faulted (Abs.Impl (mkIntVal (-7)) ⟨OnError.exception⟩) = none ∧
    resultData (Abs.Impl (mkIntVal (-7)) ⟨OnError.exception⟩) = some (RawVal.int 32 7) ∧
    faulted (Abs.Impl (mkIntVal (-(2 ^ 31))) ⟨OnError.exception⟩) =
      some Fault.arithmeticOverflow := by
  refine ⟨?_, ?_,
    (claim_C9_abs_via_sub_and_select (-(2 ^ 31)) ⟨OnError.exception⟩ (by decide)).2.2.2 rfl rfl⟩
  · exact ((claim_C9_abs_via_sub_and_select (-7) ⟨OnError.exception⟩ (by decide)).2.2.1
      (by decide)).1
  · have h := ((claim_C9_abs_via_sub_and_select (-7) ⟨OnError.exception⟩ (by decide)).2.2.1
      (by decide)).2
    norm_num at h
    exact h

/-- Claim C10: under any invocation context whose policy is neither
ReturnNull nor Exception, the division and modulo implementations emit only
the divisor zero-test (no division or remainder instruction, no guard),
raise nothing, and return the default-constructed integer Value carrying no
data handle. -/
theorem claim_C10_other_policy_empty_result (a b : Int) (ctx : InvocationContext)
    (h1 : ctx.on_error ≠ OnError.exception) (h2 : ctx.on_error ≠ OnError.returnNull) :
    Div.Impl (mkIntVal a) (mkIntVal b) ctx =
      Except.ok ({ ty := Ty.ofSql TypeId.integer, val := none, len := none, null := none },
                 [Instr.icmpEq]) ∧
    Modulo.Impl (mkIntVal a) (mkIntVal b) ctx =
      Except.ok ({ ty := Ty.ofSql TypeId.integer, val := none, len := none, null := none },
                 [Instr.icmpEq]) := by
  constructor <;> simp [Div.Impl, Modulo.Impl, h1, h2]

theorem claim_C10_witness :
    Div.Impl (mkIntVal 10) (mkIntVal 0) ⟨OnError.returnInvalid⟩ =
      Except.ok ({ ty := Ty.ofSql TypeId.integer, val := none, len := none, null := none },
                 [Instr.icmpEq]) :=
  (claim_C10_other_policy_empty_result 10 0 ⟨OnError.returnInvalid⟩ (by decide) (by decide)).1

end Terrier
